import Mathlib

/-!
Verification of the HLS stream analysis and proxy core of the
stream-snatcher repository.

The repository code is JavaScript/TypeScript.  Its pure core
(URL resolution, M3U8 playlist parsing, encryption detection, the
decision logic of the analyze and proxy endpoints) is embedded below as
executable Lean definitions.  Character-level string processing is done
on the underlying character lists so that every definition evaluates by
kernel reduction.

The WHATWG URL constructor used by the code (Node and browser `new URL`)
is an external platform library, not repository code.  It is modelled as
a parameter `URLModel` of the repository functions: a parser producing
the observable fields the code reads (`hostname`, `origin`, `pathname`,
`search`) and a relative-reference resolver producing the `href` of
`new URL(reference, base)` (`none` models a thrown exception).  Concrete
theorems instantiate the parameter with `stdURLModel`, a computable
instance that is faithful to the URL Standard on the fragment of inputs
the theorems use (plain `http`/`https` URLs, and `file` URLs whose
origin serializes as the string "null").
-/

namespace StreamSnatcher

/-! ## Character-list string helpers (JS string primitives) -/

/-- Whitespace characters removed by the JS `String.prototype.trim`
(ASCII fragment, which is all the playlists in scope contain). -/
def isWS (c : Char) : Bool :=
  c = ' ' || c = '\t' || c = '\n' || c = '\r'

/-- Trim whitespace from both ends of a character list, as JS `trim`. -/
def trimL (l : List Char) : List Char :=
  ((l.dropWhile isWS).reverse.dropWhile isWS).reverse

/-- JS `String.prototype.trim` on a Lean string. -/
def strTrim (s : String) : String :=
  String.mk (trimL s.data)

/-- JS `String.prototype.startsWith`. -/
def strStartsWith (s pat : String) : Bool :=
  pat.data.isPrefixOf s.data

/-- Containment of a pattern as a contiguous infix of a character list;
the empty pattern is contained everywhere (as in JS `includes`). -/
def hasInfixL (pat : List Char) : List Char → Bool
  | [] => pat.isEmpty
  | c :: rest => pat.isPrefixOf (c :: rest) || hasInfixL pat rest

/-- JS `String.prototype.includes`. -/
def strIncludes (s pat : String) : Bool :=
  hasInfixL pat.data s.data

/-- JS `String.prototype.substring(n)` (drop the first `n` characters). -/
def strDrop (s : String) (n : Nat) : String :=
  String.mk (s.data.drop n)

/-- Split a character list at every occurrence of the separator
character, as JS `String.prototype.split` with a one-character
separator. -/
def splitCh (sep : Char) : List Char → List (List Char)
  | [] => [[]]
  | c :: rest =>
    if c = sep then [] :: splitCh sep rest
    else
      match splitCh sep rest with
      | [] => [[c]]
      | h :: t => (c :: h) :: t

/-- JS `content.split(sep)` for a one-character separator, as strings. -/
def splitStr (sep : Char) (s : String) : List String :=
  (splitCh sep s.data).map String.mk

/-- Value of a decimal digit list, as JS `parseInt(s, 10)` on an
all-digit string. -/
def digitsToNat (l : List Char) : Nat :=
  l.foldl (fun n c => n * 10 + (c.toNat - 48)) 0

/-- The double-quote character. -/
def dq : Char := Char.ofNat 34

/-! ## Regex fragments used by the parsers

The source extracts attribute values with the regexes
`METHOD=([^,\s]+)`, `BANDWIDTH=(\d+)` and `RESOLUTION=(\d+x\d+)`
(first match).  Every one of these patterns is a literal marker
followed by a captured character-class expression, and a regex engine
returns the leftmost match: it tries each position of the subject left
to right, and succeeds at the first position where the marker is a
prefix and the capture expression matches the text after it.
`firstAttrValue` is exactly that scan. -/

/-- Everything after the first occurrence of the marker, or `none` when
the marker does not occur. -/
def afterFirstL (pat : List Char) : List Char → Option (List Char)
  | [] => none
  | c :: rest =>
    if pat.isPrefixOf (c :: rest) then some ((c :: rest).drop pat.length)
    else afterFirstL pat rest

/-- Leftmost match of the pattern `marker`-then-`matchFn` in the
subject, as a JS `subject.match(/marker.../)` capture: at each position
whose text starts with the marker, run the capture matcher on the text
after the marker; on failure continue at the next position. -/
def firstAttrValue (pat : List Char) (matchFn : List Char → Option (List Char)) :
    List Char → Option (List Char)
  | [] => none
  | c :: rest =>
    if pat.isPrefixOf (c :: rest) then
      match matchFn ((c :: rest).drop pat.length) with
      | some v => some v
      | none => firstAttrValue pat matchFn rest
    else firstAttrValue pat matchFn rest

/-- Character class `[^,\s]` of the METHOD regex. -/
def methodChar (c : Char) : Bool :=
  !(c = ',' || isWS c)

/-- Matcher for `([^,\s]+)`: a non-empty run of allowed characters. -/
def methodMatch (l : List Char) : Option (List Char) :=
  let v := l.takeWhile methodChar
  if v.isEmpty then none else some v

/-- Matcher for `(\d+)`. -/
def digitsMatch (l : List Char) : Option (List Char) :=
  let v := l.takeWhile Char.isDigit
  if v.isEmpty then none else some v

/-- Matcher for `(\d+x\d+)`. -/
def resolutionMatch (l : List Char) : Option (List Char) :=
  let d1 := l.takeWhile Char.isDigit
  if d1.isEmpty then none
  else
    match l.drop d1.length with
    | 'x' :: rest =>
      let d2 := rest.takeWhile Char.isDigit
      if d2.isEmpty then none else some (d1 ++ 'x' :: d2)
    | _ => none

/-- Value of the first `METHOD=([^,\s]+)` capture in an attribute list. -/
def methodValue (attrs : List Char) : Option (List Char) :=
  firstAttrValue "METHOD=".data methodMatch attrs

/-- Value of the first `BANDWIDTH=(\d+)` capture. -/
def bandwidthValue (attrs : List Char) : Option (List Char) :=
  firstAttrValue "BANDWIDTH=".data digitsMatch attrs

/-- Value of the first `RESOLUTION=(\d+x\d+)` capture. -/
def resolutionValue (attrs : List Char) : Option (List Char) :=
  firstAttrValue "RESOLUTION=".data resolutionMatch attrs

/-! ## Encryption detection

From `detectEncryption` in `src/server/server.js` (the copy in
`src/unnamed/part_003` is character-identical).  The source iterates the
global regex `#EXT-X-KEY:([^\n]+)` over the whole content; since each
match extends to the end of its line, the iteration visits exactly the
lines containing the tag, capturing the text after the first tag marker
of the line.  For each capture it reads the first METHOD attribute and
reports encrypted when that method, upper-cased, is not NONE. -/

/-- METHOD capture of one line, when the line carries a key tag:
text after the first `#EXT-X-KEY:`, searched for `METHOD=([^,\s]+)`. -/
def methodOfKeyLine (line : List Char) : Option (List Char) :=
  (afterFirstL "#EXT-X-KEY:".data line).bind methodValue

/-- Whether one line makes the playlist count as encrypted. -/
def keyLineEncrypted (line : List Char) : Bool :=
  match methodOfKeyLine line with
  | some m => !(m.map Char.toUpper == "NONE".data)
  | none => false

/-- `detectEncryption` of `src/server/server.js` lines 168-187. -/
def detectEncryption (content : String) : Bool :=
  (splitCh '\n' content.data).any keyLineEncrypted

/-! ## The external URL library -/

/-- Observable fields of a parsed WHATWG URL object that the repository
code reads. -/
structure JsURL where
  hostname : String
  origin : String
  pathname : String
  search : String
deriving DecidableEq

/-- Model of the platform URL library: `parse s` is `new URL(s)`
(`none` when the constructor throws) and `resolve ref base` is
`new URL(ref, base).href` (`none` when that constructor throws). -/
structure URLModel where
  parse : String → Option JsURL
  resolve : String → String → Option String

/-- Directory prefix of a path: the JS idiom
`s.substring(0, s.lastIndexOf(slash) + 1)` used throughout the source
(empty when the string has no slash). -/
def dirOf (s : String) : String :=
  String.mk ((s.data.reverse.dropWhile (fun c => c ≠ '/')).reverse)

/-- `resolveUrl` of `src/server/server.js` lines 90-106: `none` models
the JS `null` returns (empty reference, or a constructor throw caught
by the `try`/`catch`). -/
def resolveUrlServer (U : URLModel) (baseUrl relativePath : String) : Option String :=
  if relativePath = "" then none
  else if strStartsWith relativePath "http://" || strStartsWith relativePath "https://" then
    some relativePath
  else
    match U.parse baseUrl with
    | none => none
    | some base =>
      match U.resolve relativePath (base.origin ++ dirOf base.pathname) with
      | none => none
      | some href => some href

/-- `resolveUrl` of `src/src/utils/hlsParser.ts` lines 1-18: on any
caught constructor throw the reference is returned unchanged. -/
def resolveUrlHlsParser (U : URLModel) (baseUrl relativePath : String) : String :=
  if strStartsWith relativePath "http://" || strStartsWith relativePath "https://" then
    relativePath
  else
    match U.parse baseUrl with
    | none => relativePath
    | some base =>
      match U.resolve relativePath (base.origin ++ dirOf base.pathname) with
      | none => relativePath
      | some href => href

/-- `resolveUrl` of `src/unnamed/part_003` lines 55-68, a character
level copy of the `hlsParser.ts` version. -/
def resolveUrlPart003 (U : URLModel) (baseUrl relativePath : String) : String :=
  if strStartsWith relativePath "http://" || strStartsWith relativePath "https://" then
    relativePath
  else
    match U.parse baseUrl with
    | none => relativePath
    | some base =>
      match U.resolve relativePath (base.origin ++ dirOf base.pathname) with
      | none => relativePath
      | some href => href

/-! ## A concrete URL model

`stdURLModel` instantiates the library parameter for the witness and
counterexample theorems.  It is faithful to the URL Standard on the
inputs those theorems use: already-normalized `http`/`https` URLs with
a nonempty host, no userinfo, no port and no fragment, references that
are plain relative paths (no `.` or `..` segments) resolved against a
base ending in a slash, and `file` URLs, for which the standard makes
`origin` serialize as the string "null" (so that a later
`new URL(reference, "null" + path)` throws, its base having no
scheme). -/

/-- Hostname part of an `http(s)` URL in the modelled fragment. -/
def hostChars (rest : List Char) : List Char :=
  rest.takeWhile (fun c => !(c = '/' || c = '?' || c = '#'))

/-- `new URL(s)` on the modelled fragment. -/
def stdParse (s : String) : Option JsURL :=
  if strStartsWith s "http://" || strStartsWith s "https://" then
    let scheme := if strStartsWith s "https://" then "https://" else "http://"
    let rest := s.data.drop scheme.data.length
    let host := hostChars rest
    if host.isEmpty then none
    else
      let tail := rest.drop host.length
      let path := tail.takeWhile (fun c => !(c = '?' || c = '#'))
      let query := (tail.drop path.length).takeWhile (fun c => c ≠ '#')
      some { hostname := String.mk host
             origin := scheme ++ String.mk host
             pathname := if path.isEmpty then "/" else String.mk path
             search := String.mk query }
  else if strStartsWith s "file:///" then
    some { hostname := ""
           origin := "null"
           pathname := String.mk ((s.data.drop 7).takeWhile (fun c => !(c = '?' || c = '#')))
           search := "" }
  else none

/-- `new URL(ref, base).href` on the modelled fragment. -/
def stdResolve (ref base : String) : Option String :=
  if strStartsWith ref "http://" || strStartsWith ref "https://" then some ref
  else if strStartsWith base "http://" || strStartsWith base "https://" then
    if strStartsWith ref "/" then (stdParse base).map (fun u => u.origin ++ ref)
    else some (base ++ ref)
  else none

/-- The concrete URL model used by witnesses and counterexamples. -/
def stdURLModel : URLModel :=
  { parse := stdParse, resolve := stdResolve }

/-! ## Quality variants and the stable bandwidth sort

`result.qualities.sort((a, b) => b.bandwidth - a.bandwidth)` sorts
descending by bandwidth; `Array.prototype.sort` is stable (ES2019), so
equal-bandwidth entries keep encounter order.  The unique stable
descending sort is embedded as an insertion sort that places each
element before the first already-placed element of less or equal key. -/

/-- Quality variant produced by the server parser
(`resolution: null` modelled as `none`). -/
structure Quality where
  resolution : Option String
  bandwidth : Nat
  url : String
deriving DecidableEq

/-- Quality variant produced by the client parser in
`src/unnamed/part_003` (empty-string sentinels instead of `null`). -/
structure QualityC where
  resolution : String
  bandwidth : Nat
  url : String
deriving DecidableEq

/-- Insert `x` before the first element whose key is not above
`key x`; elements already placed came earlier in the input, so this is
the stable descending insertion. -/
def insertDescBy (key : α → Nat) (x : α) : List α → List α
  | [] => [x]
  | y :: ys => if key y ≤ key x then x :: y :: ys else y :: insertDescBy key x ys

/-- Stable sort by descending key. -/
def sortDescBy (key : α → Nat) : List α → List α
  | [] => []
  | x :: xs => insertDescBy key x (sortDescBy key xs)

/-- Adjacent-pairs check: each element has a key at least the key of
the next element. -/
def sortedDescBy (key : α → Nat) : List α → Bool
  | [] => true
  | [_] => true
  | x :: y :: t => decide (key y ≤ key x) && sortedDescBy key (y :: t)

/-! ## The playlist parsers

`parseM3u8` of `src/server/server.js` lines 192-264 and
`parseM3u8Client` of `src/unnamed/part_003` lines 94-166.  Both split
the content into trimmed nonempty lines, detect encryption and liveness
by whole-content checks, and classify master playlists by the presence
of `#EXT-X-STREAM-INF`.  The variant loop is factored into
`collectVariants`: for each `#EXT-X-STREAM-INF:` line it parses the
attribute regexes, takes as URL reference the first following line not
starting with `#`, resolves it, and keeps the variant only when the
resolved URL is truthy (the server resolver yields `null` on failure;
the client resolver yields the raw reference, and the client URL also
starts as the empty string when no reference line exists). -/

/-- Bandwidth of an attribute list: first `BANDWIDTH=(\d+)` capture,
default 0. -/
def bandwidthOf (attrs : List Char) : Nat :=
  match bandwidthValue attrs with
  | some v => digitsToNat v
  | none => 0

/-- Trimmed nonempty lines of the content, as in
`content.split(backslash-n).map(l => l.trim()).filter(Boolean)`. -/
def linesOf (content : String) : List String :=
  ((splitStr '\n' content).map strTrim).filter (fun l => l ≠ "")

/-- Variant collection loop of the server parser. -/
def collectVariants (U : URLModel) (baseUrl : String) : List String → List Quality
  | [] => []
  | line :: rest =>
    if strStartsWith line "#EXT-X-STREAM-INF:" then
      let attrs := (strDrop line 18).data
      let q : Quality :=
        { resolution := (resolutionValue attrs).map String.mk
          bandwidth := bandwidthOf attrs
          url := "" }
      (match rest.find? (fun l => !(strStartsWith l "#")) with
       | some u =>
         (match resolveUrlServer U baseUrl u with
          | some r =>
            if r = "" then collectVariants U baseUrl rest
            else { q with url := r } :: collectVariants U baseUrl rest
          | none => collectVariants U baseUrl rest)
       | none => collectVariants U baseUrl rest)
    else collectVariants U baseUrl rest

/-- Variant collection loop of the client parser (the resolver never
fails, so a variant is dropped only when its URL is the empty string). -/
def collectVariantsClient (U : URLModel) (baseUrl : String) : List String → List QualityC
  | [] => []
  | line :: rest =>
    if strStartsWith line "#EXT-X-STREAM-INF:" then
      let attrs := (strDrop line 18).data
      let q : QualityC :=
        { resolution := ((resolutionValue attrs).map String.mk).getD ""
          bandwidth := bandwidthOf attrs
          url := "" }
      (match rest.find? (fun l => !(strStartsWith l "#")) with
       | some u =>
         let r := resolveUrlPart003 U baseUrl u
         if r = "" then collectVariantsClient U baseUrl rest
         else { q with url := r } :: collectVariantsClient U baseUrl rest
       | none => collectVariantsClient U baseUrl rest)
    else collectVariantsClient U baseUrl rest

/-- Playlist kind. -/
inductive StreamType where
  | master
  | media
deriving DecidableEq

/-- Analysis record produced by the server parser. -/
structure StreamAnalysis where
  type : StreamType
  isLive : Bool
  isEncrypted : Bool
  baseUrl : String
  qualities : List Quality
deriving DecidableEq

/-- Analysis record produced by the client parser. -/
structure StreamAnalysisC where
  type : StreamType
  isLive : Bool
  isEncrypted : Bool
  baseUrl : String
  qualities : List QualityC
deriving DecidableEq

/-- `parseM3u8` of `src/server/server.js` lines 192-264 (the `baseUrl`
parameter is the playlist source URL, as at the call site). -/
def parseM3u8 (U : URLModel) (content baseUrl : String) : StreamAnalysis :=
  let isMaster := strIncludes content "#EXT-X-STREAM-INF"
  { type := if isMaster then .master else .media
    isLive := !(strIncludes content "#EXT-X-ENDLIST")
    isEncrypted := detectEncryption content
    baseUrl := dirOf baseUrl
    qualities :=
      if isMaster then
        sortDescBy (fun q => q.bandwidth) (collectVariants U baseUrl (linesOf content))
      else
        [{ resolution := none, bandwidth := 0, url := baseUrl }] }

/-- `parseM3u8Client` of `src/unnamed/part_003` lines 94-166. -/
def parseM3u8Client (U : URLModel) (content baseUrl : String) : StreamAnalysisC :=
  let isMaster := strIncludes content "#EXT-X-STREAM-INF"
  { type := if isMaster then .master else .media
    isLive := !(strIncludes content "#EXT-X-ENDLIST")
    isEncrypted := detectEncryption content
    baseUrl := dirOf baseUrl
    qualities :=
      if isMaster then
        sortDescBy (fun q => q.bandwidth) (collectVariantsClient U baseUrl (linesOf content))
      else
        [{ resolution := "", bandwidth := 0, url := baseUrl }] }

/-! ## The playlist fetcher request line

`fetchWithTimeout` of `src/server/server.js` lines 112-150 parses the
target with `new URL` and sends the request with
`path: parsedUrl.pathname + parsedUrl.search`, adding nothing else to
the request target. -/

/-- Request target path built by `fetchWithTimeout` (the options
`path` field); `none` when the URL constructor throws. -/
def fetchRequestPath (U : URLModel) (urlString : String) : Option String :=
  (U.parse urlString).map (fun p => p.pathname ++ p.search)

/-- Suffix of a character list starting at its first question mark
(empty when there is none). -/
def dropToQuery : List Char → List Char
  | [] => []
  | c :: rest => if c = '?' then c :: rest else dropToQuery rest

/-- Query string of a URL string taken verbatim from its characters:
everything from the first question mark on. -/
def queryPart (s : String) : String :=
  String.mk (dropToQuery s.data)

/-! ## The analyze endpoint

`handleAnalyze` of `src/server/server.js` lines 301-355, split at its
one suspension point (the upstream fetch) into the request phase and
the upstream-response phase. -/

/-- `BLOCKED_DOMAINS` of `src/server/server.js` lines 50-61. -/
def BLOCKED_DOMAINS : List String :=
  ["netflix.com", "disneyplus.com", "hulu.com", "hbomax.com", "max.com",
   "primevideo.com", "amazon.com", "peacocktv.com", "paramountplus.com",
   "appletv.apple.com"]

/-- Lower-case a string character by character, as JS `toLowerCase` on
the ASCII fragment. -/
def strToLower (s : String) : String :=
  String.mk (s.data.map Char.toLower)

/-- `isBlockedDomain` of `src/server/server.js` lines 269-276. -/
def isBlockedDomain (U : URLModel) (urlString : String) : Bool :=
  match U.parse urlString with
  | some u => BLOCKED_DOMAINS.any (fun d => strIncludes (strToLower u.hostname) d)
  | none => false

/-- Outcome of the request phase of `handleAnalyze`: either an
immediate JSON error response, or the decision to fetch upstream. -/
inductive AnalyzeStep where
  | respond (status : Nat) (error message : String)
  | fetchUpstream (url : String)
deriving DecidableEq

/-- Request phase of `handleAnalyze` (lines 302-324): missing or empty
parameter, URL validation, domain denylist, then the fetch. -/
def analyzeRequest (U : URLModel) (param : Option String) : AnalyzeStep :=
  match param with
  | none => .respond 400 "Missing URL" "Please provide a valid .m3u8 URL"
  | some u =>
    if u = "" then .respond 400 "Missing URL" "Please provide a valid .m3u8 URL"
    else if (U.parse u).isNone then
      .respond 400 "Invalid URL" "Please enter a valid .m3u8 URL"
    else if isBlockedDomain U u then
      .respond 403 "Blocked domain" "This source is not supported"
    else .fetchUpstream u

/-- Outcome of the upstream-response phase of `handleAnalyze`. -/
inductive AnalyzeResult where
  | err (status : Nat) (error message : String)
  | ok (analysis : StreamAnalysis)
deriving DecidableEq

/-- Upstream-response phase of `handleAnalyze` (lines 327-347): the
401/403 mapping, the non-200 mapping, the playlist-marker check, then
the parse. -/
def analyzeUpstream (U : URLModel) (m3u8Url : String) (statusCode : Nat)
    (content : String) : AnalyzeResult :=
  if statusCode = 401 || statusCode = 403 then
    .err statusCode "Access denied"
      "Stream requires browser session headers. Try opening the stream in your browser first, then paste the URL here."
  else if statusCode ≠ 200 then
    .err 502 "Fetch failed" ("Unable to fetch stream (HTTP " ++ toString statusCode ++ ")")
  else if !(strIncludes content "#EXTM3U") then
    .err 400 "Invalid playlist" "The URL does not contain a valid M3U8 playlist"
  else .ok (parseM3u8 U content m3u8Url)

/-! ## The proxy endpoint

`handleProxy` of `src/server/server.js` lines 360-473, modelled from
the point where the upstream response head (and, in the playlist
branch, its body) is available. -/

/-- Upstream response head fields the proxy reads. -/
structure UpstreamHead where
  statusCode : Nat
  contentType : Option String
  contentRange : Option String
  acceptRanges : Option String
  contentLength : Option String
deriving DecidableEq

/-- Marker for the URI attribute rewrite: the five characters
`URI=` followed by a double quote. -/
def uriMarker : List Char := ['U', 'R', 'I', '='] ++ [dq]

/-- Replacement text of one regex match of `URI="([^"]+)"`: the
original match is kept when the resolver result is falsy (the JS
`resolved ? ... : match`). -/
def uriReplacement (U : URLModel) (baseUrl : String) (v : List Char) : List Char :=
  match resolveUrlServer U baseUrl (String.mk v) with
  | some r => if r = "" then uriMarker ++ v ++ [dq] else uriMarker ++ r.data ++ [dq]
  | none => uriMarker ++ v ++ [dq]

/-- Global replace of `URI="([^"]+)"`, as `trimmed.replace(regex, fn)`:
scan left to right; at a marker occurrence with a non-empty quoted
value, emit the replacement and continue after the closing quote;
otherwise advance one character. -/
def replaceURIsAux (U : URLModel) (baseUrl : String) (l : List Char) : List Char :=
  match l with
  | [] => []
  | c :: rest =>
    if uriMarker.isPrefixOf (c :: rest) then
      let body := rest.drop 4
      let v := body.takeWhile (fun ch => ch ≠ dq)
      let after := body.drop v.length
      if v ≠ [] ∧ after.head? = some dq then
        uriReplacement U baseUrl v ++ replaceURIsAux U baseUrl after.tail
      else
        c :: replaceURIsAux U baseUrl rest
    else
      c :: replaceURIsAux U baseUrl rest
termination_by l.length
decreasing_by
  · simp only [List.length_cons, List.length_tail, List.length_drop]
    omega
  · simp only [List.length_cons]
    omega
  · simp only [List.length_cons]
    omega

/-- One line of the playlist rewrite loop (lines 402-418). -/
def rewriteLine (U : URLModel) (baseUrl line : String) : String :=
  let trimmed := strTrim line
  if hasInfixL uriMarker trimmed.data then
    String.mk (replaceURIsAux U baseUrl trimmed.data)
  else if trimmed = "" || strStartsWith trimmed "#" then line
  else
    match resolveUrlServer U baseUrl trimmed with
    | some r => if r = "" then line else r
    | none => line

/-- Full playlist rewrite (split, per-line map, re-join). -/
def rewritePlaylist (U : URLModel) (baseUrl content : String) : String :=
  String.intercalate "\n" ((splitStr '\n' content).map (rewriteLine U baseUrl))

/-- Outbound response of the proxy, at the `writeHead`/`sendError`
level: a JSON error, the rewritten playlist text, or the streamed
segment relay. -/
inductive ProxyOut where
  | jsonError (status : Nat) (error message : String)
  | playlistText (status : Nat) (headers : List (String × String)) (body : String)
  | stream (status : Nat) (headers : List (String × String))
deriving DecidableEq

/-- Headers of every JSON response (`sendJson`, lines 281-289). -/
def jsonHeaders : List (String × String) :=
  [("Content-Type", "application/json"),
   ("Access-Control-Allow-Origin", "*"),
   ("Access-Control-Allow-Methods", "GET, OPTIONS"),
   ("Access-Control-Allow-Headers", "Content-Type, Range")]

/-- Headers of the rewritten-playlist response (lines 420-427). -/
def playlistHeaders : List (String × String) :=
  [("Content-Type", "application/vnd.apple.mpegurl"),
   ("Access-Control-Allow-Origin", "*"),
   ("Access-Control-Allow-Methods", "GET, OPTIONS"),
   ("Access-Control-Allow-Headers", "Content-Type, Range"),
   ("Access-Control-Expose-Headers", "Content-Range, Accept-Ranges"),
   ("Cache-Control", "no-cache")]

/-- Headers of the segment relay (lines 435-450): the fixed set, then
Content-Range and Accept-Ranges copied verbatim when upstream provides
them; Content-Length is never added. -/
def segmentHeaders (resp : UpstreamHead) : List (String × String) :=
  let contentType := resp.contentType.getD "application/octet-stream"
  [("Content-Type", contentType),
   ("Access-Control-Allow-Origin", "*"),
   ("Access-Control-Allow-Methods", "GET, OPTIONS"),
   ("Access-Control-Allow-Headers", "Content-Type, Range"),
   ("Access-Control-Expose-Headers", "Content-Range, Accept-Ranges"),
   ("Cache-Control", "no-cache")]
  ++ (match resp.contentRange with
      | some v => [("Content-Range", v)]
      | none => [])
  ++ (match resp.acceptRanges with
      | some v => [("Accept-Ranges", v)]
      | none => [])

/-- Branch condition of lines 397: the URL suffix or content-type
marks the resource as a playlist. -/
def isPlaylistBranch (resourceUrl : String) (resp : UpstreamHead) : Bool :=
  strIncludes resourceUrl ".m3u8"
    || strIncludes (resp.contentType.getD "application/octet-stream") "mpegurl"

/-- Decision logic of `handleProxy` once the upstream response head is
available (lines 377-458): the 401/403 error return, then the playlist
rewrite branch, then the segment relay. -/
def handleProxyCore (U : URLModel) (resourceUrl : String) (resp : UpstreamHead)
    (body : String) : ProxyOut :=
  if resp.statusCode = 401 || resp.statusCode = 403 then
    .jsonError resp.statusCode "Access denied"
      "Stream requires browser session headers. The session may have expired."
  else if isPlaylistBranch resourceUrl resp then
    .playlistText 200 playlistHeaders (rewritePlaylist U resourceUrl body)
  else
    .stream (if resp.statusCode = 206 then 206 else 200) (segmentHeaders resp)

/-- Status code of the outbound proxy response. -/
def statusOf : ProxyOut → Nat
  | .jsonError s _ _ => s
  | .playlistText s _ _ => s
  | .stream s _ => s

/-- Headers of the outbound proxy response. -/
def headersOf : ProxyOut → List (String × String)
  | .jsonError _ _ _ => jsonHeaders
  | .playlistText _ hs _ => hs
  | .stream _ hs => hs

/-- Whether the outbound proxy response is a JSON error. -/
def isJsonErrorOut : ProxyOut → Bool
  | .jsonError _ _ _ => true
  | _ => false

/-- Whether a header name appears among the outbound headers. -/
def hasHeader (hs : List (String × String)) (name : String) : Bool :=
  hs.any (fun p => p.1 = name)

/-! ## Properties of the stable descending sort -/

/-- Head of an insertion: either the inserted element or the previous
head. -/
theorem head?_insertDescBy (key : α → Nat) (x : α) (l : List α) :
    (insertDescBy key x l).head? = some x ∨ (insertDescBy key x l).head? = l.head? := by
  cases l with
  | nil => left; rfl
  | cons y ys =>
    rw [insertDescBy]
    by_cases h : key y ≤ key x
    · left; rw [if_pos h]; rfl
    · right; rw [if_neg h]; rfl

/-- Cons characterization of the adjacent-pairs check. -/
theorem sortedDescBy_cons (key : α → Nat) (y : α) (t : List α) :
    sortedDescBy key (y :: t) = true ↔
      (∀ z, t.head? = some z → key z ≤ key y) ∧ sortedDescBy key t = true := by
  cases t with
  | nil =>
    simp [sortedDescBy]
  | cons z zs =>
    simp only [sortedDescBy, Bool.and_eq_true, decide_eq_true_eq, List.head?_cons]
    constructor
    · rintro ⟨h1, h2⟩
      exact ⟨fun w hw => by cases hw; exact h1, h2⟩
    · rintro ⟨h1, h2⟩
      exact ⟨h1 z rfl, h2⟩

/-- Inserting into a descending-sorted list keeps it sorted. -/
theorem sortedDescBy_insertDescBy (key : α → Nat) (x : α) :
    ∀ l, sortedDescBy key l = true → sortedDescBy key (insertDescBy key x l) = true := by
  intro l
  induction l with
  | nil => intro _; simp [insertDescBy, sortedDescBy]
  | cons y ys ih =>
    intro h
    rw [insertDescBy]
    by_cases hxy : key y ≤ key x
    · rw [if_pos hxy]
      rw [sortedDescBy_cons]
      exact ⟨fun z hz => by cases hz; exact hxy, h⟩
    · rw [if_neg hxy]
      have hparts := (sortedDescBy_cons key y ys).mp h
      have hins := ih hparts.2
      rw [sortedDescBy_cons]
      refine ⟨?_, hins⟩
      intro z hz
      rcases head?_insertDescBy key x ys with h1 | h1
      · rw [h1] at hz
        cases hz
        omega
      · rw [h1] at hz
        exact hparts.1 z hz

/-- The insertion sort is sorted. -/
theorem sortedDescBy_sortDescBy (key : α → Nat) :
    ∀ l, sortedDescBy key (sortDescBy key l) = true := by
  intro l
  induction l with
  | nil => simp [sortDescBy, sortedDescBy]
  | cons x xs ih =>
    rw [sortDescBy]
    exact sortedDescBy_insertDescBy key x _ ih

/-- Insertion places an element before exactly the elements of strictly
smaller key, so for every key value the sublist carrying that value is
preserved up to prepending the inserted element. -/
theorem filter_insertDescBy (key : α → Nat) (x : α) (k : Nat) :
    ∀ l, (insertDescBy key x l).filter (fun a => key a == k) =
      if key x == k then x :: l.filter (fun a => key a == k)
      else l.filter (fun a => key a == k) := by
  intro l
  induction l with
  | nil =>
    rw [insertDescBy]
    by_cases hx : key x == k <;> simp [List.filter, hx]
  | cons y ys ih =>
    rw [insertDescBy]
    by_cases hxy : key y ≤ key x
    · rw [if_pos hxy]
      by_cases hx : key x == k <;> simp [List.filter_cons, hx]
    · rw [if_neg hxy]
      by_cases hy : key y == k
      · have hyk : key y = k := by simpa using hy
        have hxk : key x ≠ k := by omega
        have hx : (key x == k) = false := by simpa using hxk
        simp [List.filter_cons, hy, hx, ih]
      · simp only [List.filter_cons, hy, cond_false]
        rw [ih]
        by_cases hx : key x == k <;> simp [hx, List.filter_cons, hy]

/-- Stability of the sort: for every key value, the elements carrying
that value appear in the sorted output in their input order. -/
theorem filter_sortDescBy (key : α → Nat) (k : Nat) :
    ∀ l, (sortDescBy key l).filter (fun a => key a == k) =
      l.filter (fun a => key a == k) := by
  intro l
  induction l with
  | nil => rfl
  | cons x xs ih =>
    rw [sortDescBy, filter_insertDescBy, ih, List.filter_cons]

/-- Indexed form of the adjacent-pairs check. -/
theorem sortedDescBy_get (key : α → Nat) :
    ∀ l, sortedDescBy key l = true → ∀ i, (h : i + 1 < l.length) →
      key (l.get ⟨i + 1, h⟩) ≤ key (l.get ⟨i, Nat.lt_of_succ_lt h⟩) := by
  intro l
  induction l with
  | nil => intro _ i h; simp at h
  | cons x t iht =>
    intro hs i h
    cases t with
    | nil => simp at h
    | cons y u =>
      have hparts : key y ≤ key x ∧ sortedDescBy key (y :: u) = true := by
        simpa [sortedDescBy, Bool.and_eq_true, decide_eq_true_eq] using hs
      cases i with
      | zero => simpa using hparts.1
      | succ j =>
        have h2 : j + 1 < (y :: u).length := by
          simpa using Nat.lt_of_succ_lt_succ h
        simpa using iht hparts.2 j h2

/-! ## Claim theorems -/

/-- Claim C4: for every base URL (including a malformed one) and every
reference that already carries an http or https scheme prefix, all
three resolveUrl copies return the reference unchanged, under every
model of the URL library (the absolute-prefix check short-circuits
before the library is consulted). -/
theorem resolveUrl_absolute_identity (U : URLModel) (base r : String)
    (habs : (strStartsWith r "http://" || strStartsWith r "https://") = true) :
    resolveUrlServer U base r = some r ∧
    resolveUrlHlsParser U base r = r ∧
    resolveUrlPart003 U base r = r := by
  have hne : r ≠ "" := by
    intro he
    subst he
    exact absurd habs (by decide)
  refine ⟨?_, ?_, ?_⟩ <;>
    simp [resolveUrlServer, resolveUrlHlsParser, resolveUrlPart003, hne, habs]

/-- Witness for C4 at a malformed base and an absolute reference. -/
theorem resolveUrl_absolute_identity_witness :
    resolveUrlServer stdURLModel "::malformed::" "https://cdn.example.com/a/b.ts"
        = some "https://cdn.example.com/a/b.ts" ∧
    resolveUrlHlsParser stdURLModel "::malformed::" "https://cdn.example.com/a/b.ts"
        = "https://cdn.example.com/a/b.ts" ∧
    resolveUrlPart003 stdURLModel "::malformed::" "https://cdn.example.com/a/b.ts"
        = "https://cdn.example.com/a/b.ts" :=
  resolveUrl_absolute_identity stdURLModel "::malformed::" "https://cdn.example.com/a/b.ts"
    (by decide)

/-- Claim C10, corrected: the three resolveUrl copies agree whenever
the base parses AND the reference is absolute or its resolution against
origin plus directory succeeds; the two client copies always agree.
(The original claim, requiring only a parsed base and a non-empty
reference, fails: see the counterexample, where a file-scheme base
parses but its origin serializes as "null", so the second URL
construction throws and the server copy returns null while the client
copies return the reference.) -/
theorem resolveUrl_copies_agree (U : URLModel) (base r : String) (u : JsURL)
    (hparse : U.parse base = some u) (hne : r ≠ "")
    (hres : (strStartsWith r "http://" || strStartsWith r "https://") = true ∨
      (U.resolve r (u.origin ++ dirOf u.pathname)).isSome = true) :
    resolveUrlServer U base r = some (resolveUrlHlsParser U base r) ∧
    resolveUrlPart003 U base r = resolveUrlHlsParser U base r := by
  have hcopies : resolveUrlPart003 U base r = resolveUrlHlsParser U base r := rfl
  refine ⟨?_, hcopies⟩
  rcases hres with habs | hres
  · simp [resolveUrlServer, resolveUrlHlsParser, hne, habs]
  · by_cases habs : (strStartsWith r "http://" || strStartsWith r "https://") = true
    · simp [resolveUrlServer, resolveUrlHlsParser, hne, habs]
    · have habs' : (strStartsWith r "http://" || strStartsWith r "https://") = false :=
        Bool.not_eq_true _ ▸ (Bool.eq_false_iff.mpr habs)
      rcases Option.isSome_iff_exists.mp hres with ⟨h, hh⟩
      simp [resolveUrlServer, resolveUrlHlsParser, hne, habs', hparse, hh]

/-- Witness for the corrected C10 at a relative reference against a
well-formed https base. -/
theorem resolveUrl_copies_agree_witness :
    resolveUrlServer stdURLModel "https://cdn.example.com/v/master.m3u8" "720p/p.m3u8"
      = some (resolveUrlHlsParser stdURLModel "https://cdn.example.com/v/master.m3u8" "720p/p.m3u8") ∧
    resolveUrlPart003 stdURLModel "https://cdn.example.com/v/master.m3u8" "720p/p.m3u8"
      = resolveUrlHlsParser stdURLModel "https://cdn.example.com/v/master.m3u8" "720p/p.m3u8" :=
  resolveUrl_copies_agree stdURLModel "https://cdn.example.com/v/master.m3u8" "720p/p.m3u8"
    { hostname := "cdn.example.com", origin := "https://cdn.example.com",
      pathname := "/v/master.m3u8", search := "" }
    (by decide) (by decide) (Or.inr (by decide))

/-- Counterexample to C10 as stated: the URL constructor accepts the
file-scheme base (its origin is the string "null") and the reference is
non-empty, yet the server copy returns null while the client copies
return the reference unchanged. -/
theorem resolveUrl_copies_diverge_counterexample :
    (stdURLModel.parse "file:///videos/a.m3u8").isSome = true ∧
    ("seg.ts" : String) ≠ "" ∧
    resolveUrlServer stdURLModel "file:///videos/a.m3u8" "seg.ts" = none ∧
    resolveUrlHlsParser stdURLModel "file:///videos/a.m3u8" "seg.ts" = "seg.ts" ∧
    resolveUrlPart003 stdURLModel "file:///videos/a.m3u8" "seg.ts" = "seg.ts" :=
  ⟨by decide, by decide, by decide, by decide, by decide⟩

/-- Unfolding of the per-line encryption check. -/
theorem keyLineEncrypted_iff (line : List Char) :
    keyLineEncrypted line = true ↔
      ∃ m, methodOfKeyLine line = some m ∧ m.map Char.toUpper ≠ "NONE".data := by
  unfold keyLineEncrypted
  cases h : methodOfKeyLine line with
  | none => simp
  | some m => simp

/-- Claim C2: the isEncrypted flag of a parsed playlist is true exactly
when some line carries a key tag whose first METHOD attribute value,
upper-cased, differs from NONE; in particular it is false when every
key-tag METHOD is NONE, false when no line carries a key tag, and true
when some key-tag METHOD is AES-128 no matter how many NONE entries
also appear. -/
theorem parse_isEncrypted_iff (U : URLModel) (content url : String) :
    ((parseM3u8 U content url).isEncrypted = true ↔
      ∃ line ∈ splitCh '\n' content.data, ∃ m, methodOfKeyLine line = some m ∧
        m.map Char.toUpper ≠ "NONE".data)
    ∧ ((splitCh '\n' content.data).all
        (fun line => (methodOfKeyLine line).all
          (fun m => m.map Char.toUpper == "NONE".data)) = true →
        (parseM3u8 U content url).isEncrypted = false)
    ∧ ((splitCh '\n' content.data).all
        (fun line => (afterFirstL "#EXT-X-KEY:".data line).isNone) = true →
        (parseM3u8 U content url).isEncrypted = false)
    ∧ ((splitCh '\n' content.data).any
        (fun line => methodOfKeyLine line == some "AES-128".data) = true →
        (parseM3u8 U content url).isEncrypted = true) := by
  have henc : (parseM3u8 U content url).isEncrypted = detectEncryption content := rfl
  have hiff : (parseM3u8 U content url).isEncrypted = true ↔
      ∃ line ∈ splitCh '\n' content.data, ∃ m, methodOfKeyLine line = some m ∧
        m.map Char.toUpper ≠ "NONE".data := by
    rw [henc]
    unfold detectEncryption
    rw [List.any_eq_true]
    constructor
    · rintro ⟨line, hline, hk⟩
      exact ⟨line, hline, (keyLineEncrypted_iff line).mp hk⟩
    · rintro ⟨line, hline, hm⟩
      exact ⟨line, hline, (keyLineEncrypted_iff line).mpr hm⟩
  refine ⟨hiff, ?_, ?_, ?_⟩
  · intro hall
    rw [Bool.eq_false_iff]
    intro htrue
    rcases hiff.mp htrue with ⟨line, hline, m, hm, hne⟩
    have := (List.all_eq_true.mp hall) line hline
    rw [hm] at this
    simp only [Option.all_some, beq_iff_eq] at this
    exact hne this
  · intro hall
    rw [Bool.eq_false_iff]
    intro htrue
    rcases hiff.mp htrue with ⟨line, hline, m, hm, _⟩
    have := (List.all_eq_true.mp hall) line hline
    unfold methodOfKeyLine at hm
    cases hafter : afterFirstL "#EXT-X-KEY:".data line with
    | none => rw [hafter] at hm; exact Option.noConfusion hm
    | some t => rw [hafter] at this; exact Bool.noConfusion this
  · intro hany
    rcases List.any_eq_true.mp hany with ⟨line, hline, hbeq⟩
    have hm : methodOfKeyLine line = some "AES-128".data := by
      simpa using hbeq
    exact hiff.mpr ⟨line, hline, "AES-128".data, hm, by decide⟩

/-- Witness for C2: a NONE-only playlist is not encrypted and a
playlist with an AES-128 key tag after a NONE key tag is encrypted. -/
theorem parse_isEncrypted_iff_witness :
    (parseM3u8 stdURLModel "#EXTM3U\n#EXT-X-KEY:METHOD=NONE\n#EXT-X-KEY:METHOD=NONE,IV=0x1"
      "https://e.com/a.m3u8").isEncrypted = false ∧
    (parseM3u8 stdURLModel "#EXTM3U\n#EXT-X-KEY:METHOD=NONE\n#EXT-X-KEY:METHOD=AES-128,IV=0x1"
      "https://e.com/a.m3u8").isEncrypted = true :=
  ⟨(parse_isEncrypted_iff stdURLModel
      "#EXTM3U\n#EXT-X-KEY:METHOD=NONE\n#EXT-X-KEY:METHOD=NONE,IV=0x1"
      "https://e.com/a.m3u8").2.1 (by decide),
   (parse_isEncrypted_iff stdURLModel
      "#EXTM3U\n#EXT-X-KEY:METHOD=NONE\n#EXT-X-KEY:METHOD=AES-128,IV=0x1"
      "https://e.com/a.m3u8").2.2.2 (by decide)⟩

/-- Claim C3: for every parsed Master playlist, both parsers produce a
qualities sequence sorted by descending bandwidth (stated both as an
adjacent-pairs check and in indexed form), and the sort is stable: for
every bandwidth value, the variants carrying it appear in their
encounter order from the playlist text. -/
theorem parse_master_sorted (U : URLModel) (content url : String)
    (hM : strIncludes content "#EXT-X-STREAM-INF" = true) :
    sortedDescBy (fun q => q.bandwidth) (parseM3u8 U content url).qualities = true
    ∧ (∀ i, (h : i + 1 < (parseM3u8 U content url).qualities.length) →
        ((parseM3u8 U content url).qualities.get ⟨i + 1, h⟩).bandwidth ≤
        ((parseM3u8 U content url).qualities.get ⟨i, Nat.lt_of_succ_lt h⟩).bandwidth)
    ∧ (∀ k, (parseM3u8 U content url).qualities.filter (fun q => q.bandwidth == k)
        = (collectVariants U url (linesOf content)).filter (fun q => q.bandwidth == k))
    ∧ sortedDescBy (fun q => q.bandwidth) (parseM3u8Client U content url).qualities = true
    ∧ (∀ k, (parseM3u8Client U content url).qualities.filter (fun q => q.bandwidth == k)
        = (collectVariantsClient U url (linesOf content)).filter (fun q => q.bandwidth == k)) := by
  have hq : (parseM3u8 U content url).qualities
      = sortDescBy (fun q => q.bandwidth) (collectVariants U url (linesOf content)) := by
    simp [parseM3u8, hM]
  have hqc : (parseM3u8Client U content url).qualities
      = sortDescBy (fun q => q.bandwidth) (collectVariantsClient U url (linesOf content)) := by
    simp [parseM3u8Client, hM]
  have hs : sortedDescBy (fun q => q.bandwidth) (parseM3u8 U content url).qualities = true := by
    rw [hq]; exact sortedDescBy_sortDescBy _ _
  have hsc : sortedDescBy (fun q => q.bandwidth) (parseM3u8Client U content url).qualities = true := by
    rw [hqc]; exact sortedDescBy_sortDescBy _ _
  refine ⟨hs, fun i h => sortedDescBy_get _ _ hs i h, ?_, hsc, ?_⟩
  · intro k
    rw [hq]
    exact filter_sortDescBy _ k _
  · intro k
    rw [hqc]
    exact filter_sortDescBy _ k _

/-- Witness for C3 at a two-variant master playlist declared in
ascending bandwidth order. -/
theorem parse_master_sorted_witness :
    sortedDescBy (fun q => q.bandwidth)
      (parseM3u8 stdURLModel
        "#EXTM3U\n#EXT-X-STREAM-INF:BANDWIDTH=2000000,RESOLUTION=1280x720\n720p/p.m3u8\n#EXT-X-STREAM-INF:BANDWIDTH=5000000,RESOLUTION=1920x1080\n1080p/p.m3u8"
        "https://cdn.example.com/video/master.m3u8").qualities = true
    ∧ (parseM3u8 stdURLModel
        "#EXTM3U\n#EXT-X-STREAM-INF:BANDWIDTH=2000000,RESOLUTION=1280x720\n720p/p.m3u8\n#EXT-X-STREAM-INF:BANDWIDTH=5000000,RESOLUTION=1920x1080\n1080p/p.m3u8"
        "https://cdn.example.com/video/master.m3u8").qualities.filter
          (fun q => q.bandwidth == 2000000)
      = (collectVariants stdURLModel "https://cdn.example.com/video/master.m3u8"
          (linesOf
            "#EXTM3U\n#EXT-X-STREAM-INF:BANDWIDTH=2000000,RESOLUTION=1280x720\n720p/p.m3u8\n#EXT-X-STREAM-INF:BANDWIDTH=5000000,RESOLUTION=1920x1080\n1080p/p.m3u8")).filter
          (fun q => q.bandwidth == 2000000) :=
  ⟨(parse_master_sorted stdURLModel
      "#EXTM3U\n#EXT-X-STREAM-INF:BANDWIDTH=2000000,RESOLUTION=1280x720\n720p/p.m3u8\n#EXT-X-STREAM-INF:BANDWIDTH=5000000,RESOLUTION=1920x1080\n1080p/p.m3u8"
      "https://cdn.example.com/video/master.m3u8" (by decide)).1,
   (parse_master_sorted stdURLModel
      "#EXTM3U\n#EXT-X-STREAM-INF:BANDWIDTH=2000000,RESOLUTION=1280x720\n720p/p.m3u8\n#EXT-X-STREAM-INF:BANDWIDTH=5000000,RESOLUTION=1920x1080\n1080p/p.m3u8"
      "https://cdn.example.com/video/master.m3u8" (by decide)).2.2.1 2000000⟩

/-- Claim C1, corrected: for every content with no stream-variant tag
(a Media playlist) the qualities sequence of both parsers is exactly
one entry carrying the source URL, bandwidth 0 and no resolution (the
empty-string sentinel in the client parser).  (The non-emptiness half
of the original claim fails for Master playlists: see the
counterexample, an accepted playlist whose variant tag is followed by
no URL line, parsed to an empty qualities sequence.) -/
theorem parse_media_single_quality (U : URLModel) (content url : String)
    (h : strIncludes content "#EXT-X-STREAM-INF" = false) :
    (parseM3u8 U content url).qualities
      = [{ resolution := none, bandwidth := 0, url := url }] ∧
    (parseM3u8Client U content url).qualities
      = [{ resolution := "", bandwidth := 0, url := url }] := by
  constructor <;> simp [parseM3u8, parseM3u8Client, h]

/-- Witness for the corrected C1 at a VOD media playlist. -/
theorem parse_media_single_quality_witness :
    (parseM3u8 stdURLModel "#EXTM3U\n#EXT-X-ENDLIST" "https://cdn.example.com/v/index.m3u8").qualities
      = [{ resolution := none, bandwidth := 0, url := "https://cdn.example.com/v/index.m3u8" }] ∧
    (parseM3u8Client stdURLModel "#EXTM3U\n#EXT-X-ENDLIST" "https://cdn.example.com/v/index.m3u8").qualities
      = [{ resolution := "", bandwidth := 0, url := "https://cdn.example.com/v/index.m3u8" }] :=
  parse_media_single_quality stdURLModel "#EXTM3U\n#EXT-X-ENDLIST"
    "https://cdn.example.com/v/index.m3u8" (by decide)

/-- Counterexample to C1 as stated: a content carrying the format
marker (so the parser accepts it) whose stream-variant tag has no
following URL line parses to an empty qualities sequence. -/
theorem parse_master_empty_qualities_counterexample :
    strIncludes "#EXTM3U\n#EXT-X-STREAM-INF:BANDWIDTH=1" "#EXTM3U" = true ∧
    (parseM3u8 stdURLModel "#EXTM3U\n#EXT-X-STREAM-INF:BANDWIDTH=1"
        "https://e.com/m.m3u8").qualities = [] :=
  ⟨by decide, by decide⟩

/-- Claim C5, corrected: for every proxy request whose upstream
response is non-playlist (segment) content and whose upstream status is
neither 401 nor 403, the outbound response never includes a
Content-Length header regardless of whether upstream sent one,
Content-Range and Accept-Ranges are copied verbatim whenever upstream
provides them, and the outbound status is 206 exactly when upstream
responded 206 and 200 otherwise.  (As stated the claim fails when
upstream answers a segment request with 401 or 403: the proxy then
returns that error status with no range headers; see the
counterexample.) -/
theorem proxy_segment_headers (U : URLModel) (url : String) (resp : UpstreamHead)
    (body : String)
    (h401 : resp.statusCode ≠ 401) (h403 : resp.statusCode ≠ 403)
    (hseg : isPlaylistBranch url resp = false) :
    hasHeader (headersOf (handleProxyCore U url resp body)) "Content-Length" = false
    ∧ (∀ v, resp.contentRange = some v →
        ("Content-Range", v) ∈ headersOf (handleProxyCore U url resp body))
    ∧ (∀ v, resp.acceptRanges = some v →
        ("Accept-Ranges", v) ∈ headersOf (handleProxyCore U url resp body))
    ∧ (statusOf (handleProxyCore U url resp body) = 206 ↔ resp.statusCode = 206)
    ∧ (resp.statusCode ≠ 206 → statusOf (handleProxyCore U url resp body) = 200) := by
  have hout : handleProxyCore U url resp body
      = .stream (if resp.statusCode = 206 then 206 else 200) (segmentHeaders resp) := by
    simp [handleProxyCore, h401, h403, hseg]
  rw [hout]
  refine ⟨?_, ?_, ?_, ?_, ?_⟩
  · cases hcr : resp.contentRange <;> cases har : resp.acceptRanges <;>
      simp [headersOf, segmentHeaders, hasHeader, hcr, har]
  · intro v hv
    simp [headersOf, segmentHeaders, hv]
  · intro v hv
    simp [headersOf, segmentHeaders, hv]
  · by_cases h206 : resp.statusCode = 206 <;> simp [statusOf, h206]
  · intro h206
    simp [statusOf, h206]

/-- Witness for the corrected C5 at a 206 range response for a
transport-stream segment. -/
theorem proxy_segment_headers_witness :
    hasHeader (headersOf (handleProxyCore stdURLModel "https://h.example.com/seg.ts"
      { statusCode := 206, contentType := some "video/mp2t",
        contentRange := some "bytes 0-99/1000", acceptRanges := some "bytes",
        contentLength := some "100" } "")) "Content-Length" = false
    ∧ ("Content-Range", "bytes 0-99/1000") ∈
        headersOf (handleProxyCore stdURLModel "https://h.example.com/seg.ts"
          { statusCode := 206, contentType := some "video/mp2t",
            contentRange := some "bytes 0-99/1000", acceptRanges := some "bytes",
            contentLength := some "100" } "")
    ∧ statusOf (handleProxyCore stdURLModel "https://h.example.com/seg.ts"
        { statusCode := 206, contentType := some "video/mp2t",
          contentRange := some "bytes 0-99/1000", acceptRanges := some "bytes",
          contentLength := some "100" } "") = 206 :=
  ⟨(proxy_segment_headers stdURLModel "https://h.example.com/seg.ts"
      { statusCode := 206, contentType := some "video/mp2t",
        contentRange := some "bytes 0-99/1000", acceptRanges := some "bytes",
        contentLength := some "100" } "" (by decide) (by decide) (by decide)).1,
   (proxy_segment_headers stdURLModel "https://h.example.com/seg.ts"
      { statusCode := 206, contentType := some "video/mp2t",
        contentRange := some "bytes 0-99/1000", acceptRanges := some "bytes",
        contentLength := some "100" } "" (by decide) (by decide) (by decide)).2.1
      "bytes 0-99/1000" rfl,
   ((proxy_segment_headers stdURLModel "https://h.example.com/seg.ts"
      { statusCode := 206, contentType := some "video/mp2t",
        contentRange := some "bytes 0-99/1000", acceptRanges := some "bytes",
        contentLength := some "100" } "" (by decide) (by decide) (by decide)).2.2.2.1).mpr rfl⟩

/-- Counterexample to C5 as stated: upstream answers a segment request
(non-playlist URL and content type) with status 401 and a Content-Range
header, but the outbound response has status 401 (neither 200 nor 206)
and carries no Content-Range header. -/
theorem proxy_segment_401_counterexample :
    isPlaylistBranch "https://h.example.com/seg.ts"
      { statusCode := 401, contentType := some "video/mp2t",
        contentRange := some "bytes 0-1/2", acceptRanges := some "bytes",
        contentLength := some "2" } = false
    ∧ statusOf (handleProxyCore stdURLModel "https://h.example.com/seg.ts"
        { statusCode := 401, contentType := some "video/mp2t",
          contentRange := some "bytes 0-1/2", acceptRanges := some "bytes",
          contentLength := some "2" } "") = 401
    ∧ hasHeader (headersOf (handleProxyCore stdURLModel "https://h.example.com/seg.ts"
        { statusCode := 401, contentType := some "video/mp2t",
          contentRange := some "bytes 0-1/2", acceptRanges := some "bytes",
          contentLength := some "2" } "")) "Content-Range" = false :=
  ⟨by decide, by decide, by decide⟩

/-- Claim C9: for every proxy request whose upstream status is neither
401 nor 403 the proxy reports success: the outbound response is never a
JSON error, playlist content is returned rewritten with status 200,
segment content is relayed with status 206 exactly when upstream
answered 206 and 200 otherwise — so an upstream 404 or 500 body reaches
the client labeled as success. -/
theorem proxy_non_auth_success (U : URLModel) (url : String) (resp : UpstreamHead)
    (body : String)
    (h401 : resp.statusCode ≠ 401) (h403 : resp.statusCode ≠ 403) :
    isJsonErrorOut (handleProxyCore U url resp body) = false
    ∧ (isPlaylistBranch url resp = true →
        handleProxyCore U url resp body
          = .playlistText 200 playlistHeaders (rewritePlaylist U url body))
    ∧ (isPlaylistBranch url resp = false →
        handleProxyCore U url resp body
          = .stream (if resp.statusCode = 206 then 206 else 200) (segmentHeaders resp))
    ∧ (statusOf (handleProxyCore U url resp body) = 200 ∨
        (statusOf (handleProxyCore U url resp body) = 206 ∧ resp.statusCode = 206)) := by
  by_cases hpl : isPlaylistBranch url resp = true
  · have hout : handleProxyCore U url resp body
        = .playlistText 200 playlistHeaders (rewritePlaylist U url body) := by
      simp [handleProxyCore, h401, h403, hpl]
    rw [hout]
    exact ⟨rfl, fun _ => rfl, fun hc => absurd hpl (by simp [hc]), Or.inl rfl⟩
  · have hpl' : isPlaylistBranch url resp = false := by
      simpa using hpl
    have hout : handleProxyCore U url resp body
        = .stream (if resp.statusCode = 206 then 206 else 200) (segmentHeaders resp) := by
      simp [handleProxyCore, h401, h403, hpl']
    rw [hout]
    refine ⟨rfl, fun hc => absurd hc (by simp [hpl']), fun _ => rfl, ?_⟩
    by_cases h206 : resp.statusCode = 206
    · exact Or.inr ⟨by simp [statusOf, h206], h206⟩
    · exact Or.inl (by simp [statusOf, h206])

/-- Witness for C9: an upstream 404 segment response is relayed to the
client with outbound status 200 and no error. -/
theorem proxy_non_auth_success_witness :
    isJsonErrorOut (handleProxyCore stdURLModel "https://h.example.com/seg.ts"
      { statusCode := 404, contentType := some "video/mp2t", contentRange := none,
        acceptRanges := none, contentLength := some "9" } "") = false
    ∧ (statusOf (handleProxyCore stdURLModel "https://h.example.com/seg.ts"
        { statusCode := 404, contentType := some "video/mp2t", contentRange := none,
          acceptRanges := none, contentLength := some "9" } "") = 200 ∨
       (statusOf (handleProxyCore stdURLModel "https://h.example.com/seg.ts"
          { statusCode := 404, contentType := some "video/mp2t", contentRange := none,
            acceptRanges := none, contentLength := some "9" } "") = 206 ∧ (404 : Nat) = 206)) :=
  ⟨(proxy_non_auth_success stdURLModel "https://h.example.com/seg.ts"
      { statusCode := 404, contentType := some "video/mp2t", contentRange := none,
        acceptRanges := none, contentLength := some "9" } "" (by decide) (by decide)).1,
   (proxy_non_auth_success stdURLModel "https://h.example.com/seg.ts"
      { statusCode := 404, contentType := some "video/mp2t", contentRange := none,
        acceptRanges := none, contentLength := some "9" } "" (by decide) (by decide)).2.2.2⟩

/-- Claim C6: an analyze request whose upstream fetch completes with
status 401 or 403 yields the access-denied error with its fixed message
mentioning session headers (never the upstream-error response), and any
other non-200 upstream status yields the upstream-error response with
status 502. -/
theorem analyze_status_mapping (U : URLModel) (url : String) (status : Nat)
    (content : String) :
    ((status = 401 ∨ status = 403) →
      analyzeUpstream U url status content = .err status "Access denied"
        "Stream requires browser session headers. Try opening the stream in your browser first, then paste the URL here."
      ∧ strIncludes
          "Stream requires browser session headers. Try opening the stream in your browser first, then paste the URL here."
          "session" = true)
    ∧ (status ≠ 200 → status ≠ 401 → status ≠ 403 →
      analyzeUpstream U url status content
        = .err 502 "Fetch failed" ("Unable to fetch stream (HTTP " ++ toString status ++ ")")) := by
  constructor
  · rintro (h | h) <;> subst h <;> exact ⟨by simp [analyzeUpstream], by decide⟩
  · intro h200 h401 h403
    simp [analyzeUpstream, h200, h401, h403]

/-- Witness for C6 at upstream statuses 403 and 404. -/
theorem analyze_status_mapping_witness :
    analyzeUpstream stdURLModel "https://h.example.com/a.m3u8" 403 "" = .err 403 "Access denied"
      "Stream requires browser session headers. Try opening the stream in your browser first, then paste the URL here."
    ∧ analyzeUpstream stdURLModel "https://h.example.com/a.m3u8" 404 ""
      = .err 502 "Fetch failed" ("Unable to fetch stream (HTTP " ++ toString (404 : Nat) ++ ")") :=
  ⟨((analyze_status_mapping stdURLModel "https://h.example.com/a.m3u8" 403 "").1
      (Or.inr rfl)).1,
   (analyze_status_mapping stdURLModel "https://h.example.com/a.m3u8" 404 "").2
      (by decide) (by decide) (by decide)⟩

/-- Claim C7: an analyze request whose well-formed (parseable,
non-empty) URL has a hostname containing any denylisted domain as a
substring is answered with the Forbidden response before any upstream
fetch is decided — the request phase never reaches the fetch step. -/
theorem analyze_blocked_domain (U : URLModel) (u : String) (ju : JsURL) (d : String)
    (hne : u ≠ "") (hparse : U.parse u = some ju)
    (hd : d ∈ BLOCKED_DOMAINS)
    (hsub : strIncludes (strToLower ju.hostname) d = true) :
    analyzeRequest U (some u) = .respond 403 "Blocked domain" "This source is not supported"
    ∧ ∀ v, analyzeRequest U (some u) ≠ .fetchUpstream v := by
  have hblocked : isBlockedDomain U u = true := by
    simp only [isBlockedDomain, hparse, List.any_eq_true]
    exact ⟨d, hd, hsub⟩
  have hmain : analyzeRequest U (some u)
      = .respond 403 "Blocked domain" "This source is not supported" := by
    simp [analyzeRequest, hne, hparse, hblocked]
  refine ⟨hmain, fun v hv => ?_⟩
  rw [hmain] at hv
  exact AnalyzeStep.noConfusion hv

/-- Witness for C7 at a hostname that merely contains a denylisted
domain as a substring. -/
theorem analyze_blocked_domain_witness :
    analyzeRequest stdURLModel (some "https://live.netflix.com.evil.example/a.m3u8")
      = .respond 403 "Blocked domain" "This source is not supported"
    ∧ analyzeRequest stdURLModel (some "https://live.netflix.com.evil.example/a.m3u8")
      ≠ .fetchUpstream "https://live.netflix.com.evil.example/a.m3u8" :=
  ⟨(analyze_blocked_domain stdURLModel "https://live.netflix.com.evil.example/a.m3u8"
      { hostname := "live.netflix.com.evil.example",
        origin := "https://live.netflix.com.evil.example",
        pathname := "/a.m3u8", search := "" }
      "netflix.com" (by decide) (by decide) (by decide) (by decide)).1,
   (analyze_blocked_domain stdURLModel "https://live.netflix.com.evil.example/a.m3u8"
      { hostname := "live.netflix.com.evil.example",
        origin := "https://live.netflix.com.evil.example",
        pathname := "/a.m3u8", search := "" }
      "netflix.com" (by decide) (by decide) (by decide) (by decide)).2
      "https://live.netflix.com.evil.example/a.m3u8"⟩

/-- Prefix characters other than the query marker do not affect the
query suffix. -/
theorem dropToQuery_append (p q : List Char) (hp : ∀ c ∈ p, c ≠ '?') :
    dropToQuery (p ++ q) = dropToQuery q := by
  induction p with
  | nil => rfl
  | cons c t ih =>
    have hc : c ≠ '?' := hp c (List.mem_cons_self c t)
    simp only [List.cons_append, dropToQuery, if_neg hc]
    exact ih (fun x hx => hp x (List.mem_cons_of_mem c hx))

/-- Taking the query suffix is idempotent. -/
theorem dropToQuery_idem (l : List Char) :
    dropToQuery (dropToQuery l) = dropToQuery l := by
  induction l with
  | nil => rfl
  | cons c t ih =>
    by_cases hc : c = '?'
    · simp [dropToQuery, hc]
    · simp [dropToQuery, hc, ih]

/-- Claim C8: the playlist fetcher sends the parsed pathname and search
of the target URL as the request path, adding and removing nothing, so
whenever the URL library reflects the characters of the target URL
(its search equals the raw query of the input and its pathname has no
query marker) the query string of the outbound request equals the query
string of the input URL byte for byte. -/
theorem fetch_query_preserved (U : URLModel) (url : String) (ju : JsURL)
    (hparse : U.parse url = some ju)
    (hsearch : ju.search = queryPart url)
    (hpath : ∀ c ∈ ju.pathname.data, c ≠ '?') :
    fetchRequestPath U url = some (ju.pathname ++ queryPart url)
    ∧ queryPart (ju.pathname ++ ju.search) = queryPart url := by
  constructor
  · simp [fetchRequestPath, hparse, hsearch]
  · show String.mk (dropToQuery (ju.pathname ++ ju.search).data) = queryPart url
    rw [String.data_append, dropToQuery_append _ _ hpath, hsearch]
    show String.mk (dropToQuery (dropToQuery url.data)) = queryPart url
    rw [dropToQuery_idem]
    rfl

/-- Witness for C8 at a token-carrying target URL. -/
theorem fetch_query_preserved_witness :
    fetchRequestPath stdURLModel "https://cdn.example.com/v/i.m3u8?token=abc%2F1&sig=XY"
      = some ("/v/i.m3u8" ++ queryPart "https://cdn.example.com/v/i.m3u8?token=abc%2F1&sig=XY")
    ∧ queryPart ("/v/i.m3u8" ++ "?token=abc%2F1&sig=XY")
      = queryPart "https://cdn.example.com/v/i.m3u8?token=abc%2F1&sig=XY" :=
  fetch_query_preserved stdURLModel "https://cdn.example.com/v/i.m3u8?token=abc%2F1&sig=XY"
    { hostname := "cdn.example.com", origin := "https://cdn.example.com",
      pathname := "/v/i.m3u8", search := "?token=abc%2F1&sig=XY" }
    (by decide) (by decide) (by decide)

end StreamSnatcher
